import Mathlib

/-!
Verification of the Alpha-payme secure-onboarding flow and settings store.

The definitions below are a shallow embedding of:
- `src/screens/SecureOnboardingScreen.tsx` (the onboarding step machine),
- the SettingsContext module (`loadSettings` / `saveSettings` /
  `updateSettings` / `resetSettings` / `useSettings`),
- the `useBiometrics` hook (`authenticate` / capability check),
- `src/data/mockData.ts` (`AppSettings`, `mockSettings`).

Asynchronous `setTimeout` callbacks are embedded as a pending-completion
queue on the screen state: `handleNext` is the synchronous part of a press,
`timerFire` delivers the next scheduled completion. Promises that may
reject are embedded as `Except`; a `try/catch` that swallows the rejection
yields a function that always returns `Except.ok`.
-/

namespace PayMe

/-- The onboarding step tag, from
`type Step = 'welcome' | 'device-key' | 'cloud-key' | 'recovery-key' | 'complete'`. -/
inductive Step where
  | welcome
  | deviceKey
  | cloudKey
  | recoveryKey
  | complete
deriving DecidableEq, BEq, Repr

/-- `const steps: Step[] = ['welcome', 'device-key', 'cloud-key', 'recovery-key', 'complete']`. -/
def steps : List Step :=
  [Step.welcome, Step.deviceKey, Step.cloudKey, Step.recoveryKey, Step.complete]

/-- `const currentStepIndex = steps.indexOf(currentStep)`. -/
def currentStepIndex (s : Step) : Nat :=
  steps.indexOf s

/-- `const progress = ((currentStepIndex + 1) / steps.length) * 100` (a percentage,
used as the progress-bar fill width). -/
def progress (s : Step) : ℚ :=
  (((currentStepIndex s : ℚ) + 1) / (steps.length : ℚ)) * 100

/-- Theme preference, from `theme: 'light' | 'dark' | 'auto'` in `AppSettings`. -/
inductive Theme where
  | light
  | dark
  | auto
deriving DecidableEq, BEq, Repr

/-- The persisted settings record, from `interface AppSettings` in
`src/data/mockData.ts`. It has exactly these four fields; there is no
`onboardingComplete` field in the interface. -/
structure AppSettings where
  biometricsEnabled : Bool
  notificationsEnabled : Bool
  hapticFeedbackEnabled : Bool
  theme : Theme
deriving DecidableEq, BEq, Repr

/-- `export const mockSettings: AppSettings = { biometricsEnabled: true,
notificationsEnabled: true, hapticFeedbackEnabled: true, theme: 'auto' }`. -/
def mockSettings : AppSettings :=
  { biometricsEnabled := true
    notificationsEnabled := true
    hapticFeedbackEnabled := true
    theme := Theme.auto }

/-- A `Partial<AppSettings>` value: each field optionally present. -/
structure PartialSettings where
  biometricsEnabled : Option Bool := none
  notificationsEnabled : Option Bool := none
  hapticFeedbackEnabled : Option Bool := none
  theme : Option Theme := none
deriving DecidableEq, BEq, Repr

/-- The spread merge `{ ...settings, ...updates }`: fields present in the
partial replace those of the base record, all other fields are untouched. -/
def mergeSettings (s : AppSettings) (p : PartialSettings) : AppSettings :=
  { biometricsEnabled := p.biometricsEnabled.getD s.biometricsEnabled
    notificationsEnabled := p.notificationsEnabled.getD s.notificationsEnabled
    hapticFeedbackEnabled := p.hapticFeedbackEnabled.getD s.hapticFeedbackEnabled
    theme := p.theme.getD s.theme }

/-- Side effects the onboarding screen can emit: haptic pulses
(`light()` / `medium()` / `heavy()`), navigation (`navigation.replace`),
and — for stating store-interaction properties — a preference-store
update (`updateSettings` of the SettingsContext). -/
inductive Effect where
  | hapticLight
  | hapticMedium
  | hapticHeavy
  | navigateReplace (route : String)
  | storeUpdate (p : PartialSettings)
deriving DecidableEq, BEq, Repr

/-- Whether an effect is a preference-store write. -/
def Effect.isStoreUpdate : Effect → Bool
  | Effect.storeUpdate _ => true
  | _ => false

/-- The React state of `SecureOnboardingScreen`: `currentStep`, `isLoading`,
`email`, plus the queue of scheduled `setTimeout` completions (each records
the step its callback will set). -/
structure ScreenState where
  currentStep : Step
  isLoading : Bool
  email : String
  pending : List Step
deriving DecidableEq, BEq, Repr

/-- The synchronous part of `handleNext`. It fires `light()` first, then
branches on `currentStep`:
- `welcome`: set step to `device-key`;
- `device-key` / `cloud-key`: set `isLoading` and schedule a timeout whose
  callback advances to the next step;
- `recovery-key`: only if `email.trim()` is non-empty, set `isLoading` and
  schedule the completion timeout;
- `complete`: fire `heavy()` and `navigation.replace('Dashboard')`.
Note: the code does not consult `isLoading` anywhere in this handler. -/
def handleNext (s : ScreenState) : ScreenState × List Effect :=
  match s.currentStep with
  | Step.welcome =>
      ({ s with currentStep := Step.deviceKey }, [Effect.hapticLight])
  | Step.deviceKey =>
      ({ s with isLoading := true, pending := s.pending ++ [Step.cloudKey] },
       [Effect.hapticLight])
  | Step.cloudKey =>
      ({ s with isLoading := true, pending := s.pending ++ [Step.recoveryKey] },
       [Effect.hapticLight])
  | Step.recoveryKey =>
      if s.email.trim = "" then
        (s, [Effect.hapticLight])
      else
        ({ s with isLoading := true, pending := s.pending ++ [Step.complete] },
         [Effect.hapticLight])
  | Step.complete =>
      (s, [Effect.hapticLight, Effect.hapticHeavy, Effect.navigateReplace "Dashboard"])

/-- Delivery of the next scheduled `setTimeout` callback. Every callback in
the source does the same three things: `setIsLoading(false)`, a haptic
(`medium()` for the device-key and cloud-key timers, `heavy()` for the
recovery-key timer whose target is `complete`), and `setCurrentStep(target)`.
There is no failure branch: a started delay always completes this way. -/
def timerFire (s : ScreenState) : ScreenState × List Effect :=
  match s.pending with
  | [] => (s, [])
  | t :: rest =>
      ({ s with isLoading := false, currentStep := t, pending := rest },
       [if t == Step.complete then Effect.hapticHeavy else Effect.hapticMedium])

/-- The button's `disabled` prop:
`isLoading || (currentStep === 'recovery-key' && !email.trim())`. -/
def buttonDisabled (s : ScreenState) : Bool :=
  s.isLoading || (s.currentStep == Step.recoveryKey && s.email.trim == "")

/-- A press dispatched through the UI button: a disabled button ignores the
press; otherwise `handleNext` runs. -/
def uiPress (s : ScreenState) : ScreenState × List Effect :=
  if buttonDisabled s then (s, []) else handleNext s

/-- One successful `advance()` from a quiescent state: the synchronous
handler followed by the completion of the timeout it scheduled (if any). -/
def advanceOk (s : ScreenState) : ScreenState :=
  (timerFire (handleNext s).1).1

/-- The initial state: `useState<Step>('welcome')`, `useState(false)`,
`useState('')`, no timer scheduled. -/
def startState : ScreenState :=
  { currentStep := Step.welcome, isLoading := false, email := "", pending := [] }

/-- What `AsyncStorage` holds under `'@PayMeProtocol:settings'`: nothing,
an unparseable string (so `JSON.parse` throws), or a serialized record. -/
inductive StoredVal where
  | missing
  | corrupt
  | valid (s : AppSettings)
deriving DecidableEq, BEq, Repr

/-- Failure of a durable write: `AsyncStorage.setItem` rejecting. -/
inductive StorageError where
  | writeFailed
deriving DecidableEq, BEq, Repr

/-- The state of a mounted `SettingsProvider` together with its durable
storage environment: `memory` is the React `settings` state (initialized to
`mockSettings`), `isLoading` the loading flag, `stored` the AsyncStorage
content for the settings key, `writeFails` whether `setItem` rejects, and
`loggedErrors` counts `console.error` calls. -/
structure StoreState where
  memory : AppSettings
  isLoading : Bool
  stored : StoredVal
  writeFails : Bool
  loggedErrors : Nat
deriving DecidableEq, BEq, Repr

/-- `saveSettings`: `try { await AsyncStorage.setItem(key, JSON.stringify(newSettings)) }
catch (error) { console.error(...) }`. A rejected write is caught and
logged; it is never rethrown, so the function always completes. -/
def saveSettings (st : StoreState) (ns : AppSettings) : StoreState :=
  if st.writeFails then
    { st with loggedErrors := st.loggedErrors + 1 }
  else
    { st with stored := StoredVal.valid ns }

/-- `loadSettings`: reads the stored record; if present, parses it and sets
the React state; a missing record leaves the defaults in place; a parse (or
read) failure is caught, logged, and the defaults stay; `finally` clears
`isLoading`. Nothing is ever written back to storage, and the promise
always resolves (`Except.ok`). -/
def loadSettings (st : StoreState) : Except StorageError StoreState :=
  match st.stored with
  | StoredVal.missing => Except.ok { st with isLoading := false }
  | StoredVal.corrupt =>
      Except.ok { st with loggedErrors := st.loggedErrors + 1, isLoading := false }
  | StoredVal.valid s => Except.ok { st with memory := s, isLoading := false }

/-- `updateSettings(updates)`: `newSettings = { ...settings, ...updates }`,
`setSettings(newSettings)`, `await saveSettings(newSettings)`. Since
`saveSettings` swallows its own errors, the returned promise always
resolves (`Except.ok`). -/
def updateSettings (st : StoreState) (p : PartialSettings) : Except StorageError StoreState :=
  let ns := mergeSettings st.memory p
  Except.ok (saveSettings { st with memory := ns } ns)

/-- `resetSettings()`: `setSettings(mockSettings)` then
`await saveSettings(mockSettings)`; always resolves. -/
def resetSettings (st : StoreState) : Except StorageError StoreState :=
  Except.ok (saveSettings { st with memory := mockSettings } mockSettings)

/-- A freshly mounted `SettingsProvider` over the given durable storage
content (simulating an app restart): `useState<AppSettings>(mockSettings)`,
`useState(true)`. -/
def freshStart (sv : StoredVal) : StoreState :=
  { memory := mockSettings, isLoading := true, stored := sv
    writeFails := false, loggedErrors := 0 }

/-- The outcome of the platform call
`LocalAuthentication.authenticateAsync(...)`: resolves with success,
resolves with failure (optionally carrying `result.error`), or rejects
(`some m` when the thrown value is an `Error` with message `m`). -/
inductive PlatformAuthOutcome where
  | ok
  | failed (e : Option String)
  | thrown (m : Option String)
deriving DecidableEq, BEq, Repr

/-- `interface BiometricResult { success: boolean; error?: string }`. -/
structure BiometricResult where
  success : Bool
  error : Option String := none
deriving DecidableEq, BEq, Repr

/-- `authenticate(promptMessage)` from `useBiometrics`, as a function of the
hook's `isAvailable` state and the platform call's outcome. The returned
`Bool` records whether `LocalAuthentication.authenticateAsync` was invoked.
If `isAvailable` is false the platform API is not called and a failure
result is returned; `result.error || 'Authentication failed'` supplies the
failure message; a rejection is caught and turned into
`error instanceof Error ? error.message : 'Authentication failed'`.
The function is total: `authenticate` never throws. -/
def authenticate (isAvailable : Bool) (platform : PlatformAuthOutcome) :
    BiometricResult × Bool :=
  if !isAvailable then
    ({ success := false
       error := some "Biometric authentication is not available on this device" },
     false)
  else
    match platform with
    | PlatformAuthOutcome.ok => ({ success := true }, true)
    | PlatformAuthOutcome.failed e =>
        ({ success := false, error := some (e.getD "Authentication failed") }, true)
    | PlatformAuthOutcome.thrown m =>
        ({ success := false, error := some (m.getD "Authentication failed") }, true)

/-- The data carried by `SettingsContextType` (its `settings` and
`isLoading` members; the three update callbacks are the provider functions
modelled above and are irrelevant to the nullability check below). -/
structure SettingsContextType where
  settings : AppSettings
  isLoading : Bool
deriving DecidableEq, BEq, Repr

/-- `useSettings()`: reads the context; `undefined` (no `SettingsProvider`
above the caller) makes it throw, otherwise it returns the context value. -/
def useSettings (context : Option SettingsContextType) :
    Except String SettingsContextType :=
  match context with
  | none => Except.error "useSettings must be used within a SettingsProvider"
  | some ctx => Except.ok ctx

/-- C1: from any quiescent state (no effect in flight, no pending timer) on a
non-terminal step, with the recovery-contact precondition satisfied at
`recovery-key`, a successful `advance()` (press plus completion of the
scheduled timeout) moves `currentStep` to the immediately following step of
`steps` — index increases by exactly one, so a sequence of successful
advances from `start()` visits Welcome, DeviceKey, CloudKey, RecoveryKey,
Complete in exactly that order, with no repeats and no skips — and leaves
the state quiescent again. -/
theorem advance_linear_progress (s : ScreenState)
    (hl : s.isLoading = false) (hp : s.pending = [])
    (hc : s.currentStep ≠ Step.complete)
    (he : s.currentStep = Step.recoveryKey → s.email.trim ≠ "") :
    currentStepIndex (advanceOk s).currentStep = currentStepIndex s.currentStep + 1 ∧
    (advanceOk s).isLoading = false ∧ (advanceOk s).pending = [] := by
  rcases s with ⟨step, il, em, pend⟩
  dsimp only at hl hp hc he
  subst hl; subst hp
  cases step <;> simp_all [advanceOk, handleNext, timerFire, currentStepIndex, steps] <;>
    decide

/-- Witness for C1 at the initial state `start()`. -/
theorem advance_linear_progress_witness :
    currentStepIndex (advanceOk startState).currentStep =
      currentStepIndex startState.currentStep + 1 ∧
    (advanceOk startState).isLoading = false ∧ (advanceOk startState).pending = [] :=
  advance_linear_progress startState rfl rfl (by decide) (by decide)

/-- C2 counterexample: in an in-flight state (`isLoading = true` on
`device-key`, one timer already scheduled), calling `handleNext` is not
rejected and does not leave the state unchanged: it schedules a second
completion timer (the pending queue grows to two entries), i.e. a second
effect is started. -/
theorem concurrent_advance_not_rejected :
    (handleNext { currentStep := Step.deviceKey, isLoading := true, email := "",
                  pending := [Step.cloudKey] }).1 ≠
      { currentStep := Step.deviceKey, isLoading := true, email := "",
        pending := [Step.cloudKey] } ∧
    (handleNext { currentStep := Step.deviceKey, isLoading := true, email := "",
                  pending := [Step.cloudKey] }).1.pending = [Step.cloudKey, Step.cloudKey] := by
  decide

/-- C2 amended: the handler itself has no in-flight guard; double-submit is
prevented one layer up, by the button's `disabled` prop. Whenever
`isLoading` is true the button is disabled, so a press dispatched through
the UI does nothing and the state is unchanged. -/
theorem inflight_press_blocked_by_disabled_button (s : ScreenState)
    (h : s.isLoading = true) :
    buttonDisabled s = true ∧ uiPress s = (s, []) := by
  refine ⟨by simp [buttonDisabled, h], by simp [uiPress, buttonDisabled, h]⟩

/-- Witness for the amended C2 at a concrete in-flight state. -/
theorem inflight_press_blocked_witness :
    buttonDisabled { currentStep := Step.deviceKey, isLoading := true, email := "",
                     pending := [Step.cloudKey] } = true ∧
    uiPress { currentStep := Step.deviceKey, isLoading := true, email := "",
              pending := [Step.cloudKey] } =
      ({ currentStep := Step.deviceKey, isLoading := true, email := "",
         pending := [Step.cloudKey] }, []) :=
  inflight_press_blocked_by_disabled_button
    { currentStep := Step.deviceKey, isLoading := true, email := "",
      pending := [Step.cloudKey] } rfl

/-- The concrete in-flight state produced by a valid `recovery-key` press
(non-empty contact entered, `isLoading` set, verification timer scheduled). -/
def rkState : ScreenState :=
  { currentStep := Step.recoveryKey
    isLoading := true
    email := "a@b.com"
    pending := [Step.complete] }

/-- C3 counterexample: completing the recovery-verification timer from the
state a valid `recovery-key` press leaves behind reaches `complete`, and
the transition emits no preference-store write at all (in particular no
`onboardingComplete` write) — only the `heavy()` haptic. -/
theorem complete_reached_without_store_write :
    (timerFire rkState).1.currentStep = Step.complete ∧
    (timerFire rkState).2 = [Effect.hapticHeavy] ∧
    (timerFire rkState).2.filter Effect.isStoreUpdate = [] := by
  decide

/-- Timer completions never emit a preference-store write. -/
lemma filter_store_timerFire (s : ScreenState) :
    (timerFire s).2.filter Effect.isStoreUpdate = [] := by
  rcases s with ⟨step, il, em, pend⟩
  cases pend with
  | nil => rfl
  | cons t rest => cases t <;> rfl

/-- The synchronous press handler never emits a preference-store write. -/
lemma filter_store_handleNext (s : ScreenState) :
    (handleNext s).2.filter Effect.isStoreUpdate = [] := by
  rcases s with ⟨step, il, em, pend⟩
  cases step
  case recoveryKey =>
    by_cases h : em.trim = "" <;>
      simp [handleNext, h, Effect.isStoreUpdate]
  all_goals rfl

/-- C3 amended: no transition of the onboarding screen — neither the
synchronous press handler nor any timer completion — ever writes to the
preference store, and the persisted `AppSettings` record consists of
exactly the four fields `biometricsEnabled`, `notificationsEnabled`,
`hapticFeedbackEnabled`, `theme`: there is no `onboardingComplete` flag. -/
theorem onboarding_never_writes_store (s : ScreenState) :
    ((handleNext s).2 ++ (timerFire (handleNext s).1).2).filter Effect.isStoreUpdate = [] ∧
    ∀ a : AppSettings,
      a = { biometricsEnabled := a.biometricsEnabled,
            notificationsEnabled := a.notificationsEnabled,
            hapticFeedbackEnabled := a.hapticFeedbackEnabled,
            theme := a.theme } := by
  constructor
  · rw [List.filter_append, filter_store_handleNext s,
      filter_store_timerFire (handleNext s).1]
    rfl
  · intro a; rfl

/-- C4 counterexample: at `welcome` the code displays `progress = 20`
(percent), a fraction of `1/5`, while the claim's formula
`index/(steps.length - 1)` gives `0`. -/
theorem progress_at_welcome_mismatch :
    progress Step.welcome = 20 ∧
    progress Step.welcome / 100 ≠
      (currentStepIndex Step.welcome : ℚ) / ((steps.length : ℚ) - 1) := by
  have h1 : currentStepIndex Step.welcome = 0 := rfl
  have h2 : steps.length = 5 := rfl
  unfold progress
  rw [h1, h2]
  norm_num

/-- C4 amended: the displayed progress fraction is
`(index(currentStep) + 1) / (number of steps)`: `1/5` at Welcome, `2/5` at
DeviceKey, `3/5` at CloudKey, `4/5` at RecoveryKey, and `1` at Complete,
always lying in `(0, 1]` (hence in `[0, 1]`). -/
theorem progress_fraction_values (s : Step) :
    progress Step.welcome = 20 ∧ progress Step.deviceKey = 40 ∧
    progress Step.cloudKey = 60 ∧ progress Step.recoveryKey = 80 ∧
    progress Step.complete = 100 ∧
    progress s / 100 = ((currentStepIndex s : ℚ) + 1) / (steps.length : ℚ) ∧
    0 < progress s / 100 ∧ progress s / 100 ≤ 1 := by
  have hw : currentStepIndex Step.welcome = 0 := rfl
  have hd : currentStepIndex Step.deviceKey = 1 := rfl
  have hc : currentStepIndex Step.cloudKey = 2 := rfl
  have hr : currentStepIndex Step.recoveryKey = 3 := rfl
  have hk : currentStepIndex Step.complete = 4 := rfl
  have h2 : steps.length = 5 := rfl
  cases s <;> simp only [progress, hw, hd, hc, hr, hk, h2] <;> norm_num

/-- C5: when the durable write succeeds, `updateSettings p` resolves with a
state whose in-memory value (what `get()` returns) is the shallow merge of
the prior value and `p` — each field present in `p` is replaced, each field
absent from `p` is untouched — the full merged record is persisted, and a
fresh provider mount over the resulting storage (simulating restart) loads
that same merged record. -/
theorem update_merge_roundtrip (st : StoreState) (p : PartialSettings)
    (h : st.writeFails = false) :
    ∃ st1, updateSettings st p = Except.ok st1 ∧
      st1.memory = mergeSettings st.memory p ∧
      (p.biometricsEnabled = none →
        st1.memory.biometricsEnabled = st.memory.biometricsEnabled) ∧
      (∀ b, p.biometricsEnabled = some b → st1.memory.biometricsEnabled = b) ∧
      (p.notificationsEnabled = none →
        st1.memory.notificationsEnabled = st.memory.notificationsEnabled) ∧
      (∀ b, p.notificationsEnabled = some b → st1.memory.notificationsEnabled = b) ∧
      (p.hapticFeedbackEnabled = none →
        st1.memory.hapticFeedbackEnabled = st.memory.hapticFeedbackEnabled) ∧
      (∀ b, p.hapticFeedbackEnabled = some b → st1.memory.hapticFeedbackEnabled = b) ∧
      (p.theme = none → st1.memory.theme = st.memory.theme) ∧
      (∀ t, p.theme = some t → st1.memory.theme = t) ∧
      ∃ st2, loadSettings (freshStart st1.stored) = Except.ok st2 ∧
        st2.memory = mergeSettings st.memory p := by
  have hs : updateSettings st p =
      Except.ok { st with memory := mergeSettings st.memory p,
                          stored := StoredVal.valid (mergeSettings st.memory p) } := by
    simp [updateSettings, saveSettings, h]
  refine ⟨_, hs, rfl, ?_, ?_, ?_, ?_, ?_, ?_, ?_, ?_, ⟨_, rfl, rfl⟩⟩
  · intro hb; simp [mergeSettings, hb]
  · intro b hb; simp [mergeSettings, hb]
  · intro hb; simp [mergeSettings, hb]
  · intro b hb; simp [mergeSettings, hb]
  · intro hb; simp [mergeSettings, hb]
  · intro b hb; simp [mergeSettings, hb]
  · intro hb; simp [mergeSettings, hb]
  · intro b hb; simp [mergeSettings, hb]

/-- A concrete store state with working durable writes. -/
def healthyStore : StoreState :=
  { memory := mockSettings
    isLoading := false
    stored := StoredVal.valid mockSettings
    writeFails := false
    loggedErrors := 0 }

/-- A concrete partial update touching only `biometricsEnabled`. -/
def bioOff : PartialSettings :=
  { biometricsEnabled := some false }

/-- Witness for C5 at a concrete state and partial update. -/
theorem update_merge_roundtrip_witness :
    ∃ st1, updateSettings healthyStore bioOff = Except.ok st1 ∧
      st1.memory = mergeSettings healthyStore.memory bioOff ∧
      (bioOff.biometricsEnabled = none →
        st1.memory.biometricsEnabled = healthyStore.memory.biometricsEnabled) ∧
      (∀ b, bioOff.biometricsEnabled = some b → st1.memory.biometricsEnabled = b) ∧
      (bioOff.notificationsEnabled = none →
        st1.memory.notificationsEnabled = healthyStore.memory.notificationsEnabled) ∧
      (∀ b, bioOff.notificationsEnabled = some b → st1.memory.notificationsEnabled = b) ∧
      (bioOff.hapticFeedbackEnabled = none →
        st1.memory.hapticFeedbackEnabled = healthyStore.memory.hapticFeedbackEnabled) ∧
      (∀ b, bioOff.hapticFeedbackEnabled = some b → st1.memory.hapticFeedbackEnabled = b) ∧
      (bioOff.theme = none → st1.memory.theme = healthyStore.memory.theme) ∧
      (∀ t, bioOff.theme = some t → st1.memory.theme = t) ∧
      ∃ st2, loadSettings (freshStart st1.stored) = Except.ok st2 ∧
        st2.memory = mergeSettings healthyStore.memory bioOff :=
  update_merge_roundtrip healthyStore bioOff rfl

/-- C6 counterexample: loading with no stored record resolves with the
default settings in memory, but durable storage still holds no record
afterwards — the defaults are not persisted, contrary to the claim. -/
theorem load_missing_not_persisting_defaults :
    loadSettings (freshStart StoredVal.missing) =
      Except.ok { memory := mockSettings
                  isLoading := false
                  stored := StoredVal.missing
                  writeFails := false
                  loggedErrors := 0 } ∧
    StoredVal.missing ≠ StoredVal.valid mockSettings :=
  ⟨rfl, fun hx => nomatch hx⟩

/-- C6 amended: `loadSettings` never throws (it always resolves), and on a
missing or corrupt stored record the in-memory value stays at the default
`mockSettings`, treating corruption and absence identically as a first run;
however, durable storage is left unchanged — the defaults are not written
back. -/
theorem load_defaults_on_missing_or_corrupt (st : StoreState)
    (h : st.stored = StoredVal.missing ∨ st.stored = StoredVal.corrupt)
    (hm : st.memory = mockSettings) :
    ∃ st1, loadSettings st = Except.ok st1 ∧ st1.memory = mockSettings ∧
      st1.stored = st.stored ∧ st1.isLoading = false := by
  rcases h with h | h
  · refine ⟨{ st with isLoading := false }, ?_, hm, rfl, rfl⟩
    simp [loadSettings, h]
  · refine ⟨{ st with isLoading := false, loggedErrors := st.loggedErrors + 1 },
      ?_, hm, rfl, rfl⟩
    simp [loadSettings, h]

/-- Witness for the amended C6 at a fresh mount over empty storage. -/
theorem load_defaults_witness :
    ∃ st1, loadSettings (freshStart StoredVal.missing) = Except.ok st1 ∧
      st1.memory = mockSettings ∧
      st1.stored = (freshStart StoredVal.missing).stored ∧
      st1.isLoading = false :=
  load_defaults_on_missing_or_corrupt (freshStart StoredVal.missing) (Or.inl rfl) rfl

/-- A concrete store state whose durable writes fail. -/
def failingStore : StoreState :=
  { memory := mockSettings
    isLoading := false
    stored := StoredVal.valid mockSettings
    writeFails := true
    loggedErrors := 0 }

/-- C7 counterexample: with a failing durable write, `updateSettings`
resolves successfully (`Except.ok`, not an error): the in-memory value is
updated and the failure is only logged, while storage keeps the old
record — the unpersisted change is silently dropped, contrary to the
claimed propagation of `StorageError`. -/
theorem update_write_failure_swallowed :
    updateSettings failingStore bioOff =
      Except.ok { failingStore with
                    memory := { mockSettings with biometricsEnabled := false }
                    loggedErrors := 1 } ∧
    updateSettings failingStore bioOff ≠ Except.error StorageError.writeFailed :=
  ⟨rfl, fun hx => nomatch hx⟩

/-- C7 amended: when the durable write fails during `updateSettings` or
`resetSettings`, the error is caught and logged inside `saveSettings` and
never reaches the caller: both calls resolve successfully, the in-memory
value is still changed, and the stored record is left unchanged. -/
theorem write_failure_logged_not_propagated (st : StoreState) (p : PartialSettings)
    (h : st.writeFails = true) :
    (∃ st1, updateSettings st p = Except.ok st1 ∧
      st1.memory = mergeSettings st.memory p ∧
      st1.stored = st.stored ∧ st1.loggedErrors = st.loggedErrors + 1) ∧
    (∃ st2, resetSettings st = Except.ok st2 ∧ st2.memory = mockSettings ∧
      st2.stored = st.stored ∧ st2.loggedErrors = st.loggedErrors + 1) := by
  constructor
  · refine ⟨{ st with memory := mergeSettings st.memory p, loggedErrors := st.loggedErrors + 1 }, ?_, rfl, rfl, rfl⟩
    simp [updateSettings, saveSettings, h]
  · refine ⟨{ st with memory := mockSettings, loggedErrors := st.loggedErrors + 1 }, ?_, rfl, rfl, rfl⟩
    simp [resetSettings, saveSettings, h]

/-- Witness for the amended C7 at a concrete failing store. -/
theorem write_failure_logged_witness :
    (∃ st1, updateSettings failingStore bioOff = Except.ok st1 ∧
      st1.memory = mergeSettings failingStore.memory bioOff ∧
      st1.stored = failingStore.stored ∧
      st1.loggedErrors = failingStore.loggedErrors + 1) ∧
    (∃ st2, resetSettings failingStore = Except.ok st2 ∧
      st2.memory = mockSettings ∧ st2.stored = failingStore.stored ∧
      st2.loggedErrors = failingStore.loggedErrors + 1) :=
  write_failure_logged_not_propagated failingStore bioOff rfl

/-- C8: a started provisioning operation unconditionally succeeds. Whenever
a completion timer is pending, its delivery always clears `isLoading` and
sets `currentStep` to the scheduled next step, emitting only a haptic;
there is no failure branch, and `ScreenState` carries no error field, so no
state reporting a provisioning error is reachable. -/
theorem provisioning_always_succeeds (s : ScreenState) (t : Step) (rest : List Step)
    (h : s.pending = t :: rest) :
    timerFire s =
      ({ s with isLoading := false, currentStep := t, pending := rest },
       [if t == Step.complete then Effect.hapticHeavy else Effect.hapticMedium]) := by
  simp [timerFire, h]

/-- Witness for C8 at the in-flight recovery-verification state. -/
theorem provisioning_always_succeeds_witness :
    timerFire rkState =
      ({ rkState with isLoading := false, currentStep := Step.complete, pending := [] },
       [Effect.hapticHeavy]) :=
  provisioning_always_succeeds rkState Step.complete [] rfl

/-- C9: `authenticate` never throws — it is a total function into
`BiometricResult`. When the capability check found biometrics unavailable
it returns a failure result without invoking the platform API (the second
component, recording whether `authenticateAsync` was called, is `false`);
and any exception raised by the platform call is caught and returned as a
failure result carrying an error message. -/
theorem authenticate_total_and_guarded (platform : PlatformAuthOutcome)
    (m : Option String) :
    authenticate false platform =
      ({ success := false,
         error := some "Biometric authentication is not available on this device" },
       false) ∧
    (authenticate true (PlatformAuthOutcome.thrown m)).2 = true ∧
    (authenticate true (PlatformAuthOutcome.thrown m)).1.success = false ∧
    ((authenticate true (PlatformAuthOutcome.thrown m)).1.error).isSome = true := by
  refine ⟨rfl, ?_, ?_, ?_⟩ <;> cases m <;> rfl

/-- C10: `useSettings` throws exactly when the context is `undefined` (no
`SettingsProvider` above the caller); with a provider mounted the context
is some value and `useSettings` returns it, so the error branch is
unreachable. -/
theorem useSettings_provider_guard (ctx : SettingsContextType) :
    useSettings none = Except.error "useSettings must be used within a SettingsProvider" ∧
    useSettings (some ctx) = Except.ok ctx :=
  ⟨rfl, rfl⟩

end PayMe
